import Mathlib

/-!
Verification development for the MarkdownEditor PDF export pipeline.

The definitions below are a shallow embedding of the TypeScript sources:
  - `src/lib/pdfGenerator.ts`   (class BackgroundPDFGenerator, element variant)
  - `src/lib/pdfUtils.ts`       (generatePDFFromElement, downloadPDF, validatePDFOptions)
  - `src/lib/downloadUtils.ts`  (downloadFile)
  - the html2pdf-based BackgroundPDFGenerator variant (string-content variant)

Numbers are modelled as rationals (JS numbers carry exact decimal literals in
all code paths of interest), JS strings used as filenames are modelled as
`List Char`, and the asynchronous control flow of one `generatePDF` run is
modelled as a pure function of the pre-call instance state plus an
environment recording where cancellation arrives and whether the external
rasterizer / assembler throws.
-/

namespace MarkdownEditor

/-! ### Geometry: unit conversion, page dimensions, fit scaling
From `pdfGenerator.ts` lines 69-70 and 200-275 (`createPDFFromCanvas`). -/

/-- The fixed px-to-mm conversion constant `0.264583` used throughout
`pdfGenerator.ts`. -/
def mmPerPx : ℚ := 264583 / 1000000

inductive PageSize
  | a4
  | letter
  | legal
deriving DecidableEq, Repr

inductive Orientation
  | portrait
  | landscape
deriving DecidableEq, Repr

structure Margin where
  top : ℚ
  right : ℚ
  bottom : ℚ
  left : ℚ
deriving DecidableEq, Repr

/-- `options.pageSize === 'a4' ? 210 : options.pageSize === 'letter' ? 216 : 216`
(an absent `pageSize` falls through to the last branch). -/
def pageWidthOf (ps : Option PageSize) : ℚ :=
  match ps with
  | some PageSize.a4 => 210
  | some PageSize.letter => 216
  | _ => 216

/-- `options.pageSize === 'a4' ? 297 : options.pageSize === 'letter' ? 279 : 356`. -/
def pageHeightOf (ps : Option PageSize) : ℚ :=
  match ps with
  | some PageSize.a4 => 297
  | some PageSize.letter => 279
  | _ => 356

/-- `options.margin || { top: 20, right: 20, bottom: 20, left: 20 }`. -/
def defaultMargin : Margin := ⟨20, 20, 20, 20⟩

/-- Options record of `PDFGenerationOptions` in `pdfGenerator.ts`
(metadata string fields that play no role in any claim are omitted). -/
structure PDFGenerationOptions where
  filename : List Char
  pageSize : Option PageSize
  orientation : Option Orientation
  margin : Option Margin
  quality : Option ℚ
  scale : Option ℚ
deriving DecidableEq, Repr

def marginOf (o : PDFGenerationOptions) : Margin := o.margin.getD defaultMargin

/-- A rasterized bitmap; `width`/`height` are the canvas pixel dimensions. -/
structure Canvas where
  width : ℚ
  height : ℚ
deriving DecidableEq, Repr

/-- `contentWidth = pageWidth - margin.left - margin.right`. -/
def contentWidthOf (o : PDFGenerationOptions) : ℚ :=
  pageWidthOf o.pageSize - (marginOf o).left - (marginOf o).right

/-- `contentHeight = pageHeight - margin.top - margin.bottom`. -/
def contentHeightOf (o : PDFGenerationOptions) : ℚ :=
  pageHeightOf o.pageSize - (marginOf o).top - (marginOf o).bottom

/-- `imgWidthMM = imgWidth * 0.264583`. -/
def imgWidthMM (cv : Canvas) : ℚ := cv.width * mmPerPx

/-- `imgHeightMM = imgHeight * 0.264583`. -/
def imgHeightMM (cv : Canvas) : ℚ := cv.height * mmPerPx

/-- `finalScale = Math.min(scaleX, 1.2)` with `scaleX = contentWidth / imgWidthMM`. -/
def finalScaleOf (o : PDFGenerationOptions) (cv : Canvas) : ℚ :=
  min (contentWidthOf o / imgWidthMM cv) (12 / 10)

/-- `finalWidth = imgWidthMM * finalScale`. -/
def finalWidthOf (o : PDFGenerationOptions) (cv : Canvas) : ℚ :=
  imgWidthMM cv * finalScaleOf o cv

/-- `finalHeight = imgHeightMM * finalScale`. -/
def finalHeightOf (o : PDFGenerationOptions) (cv : Canvas) : ℚ :=
  imgHeightMM cv * finalScaleOf o cv

/-! ### Page slicing
From `pdfGenerator.ts` lines 277-371 (`addImageToPDF`). -/

/-- `pageContentHeightPx = pageContentHeight / 0.264583` (line 288). -/
def pageContentHeightPx (pageContentHeight : ℚ) : ℚ := pageContentHeight / mmPerPx

/-- `totalPages = Math.ceil(imgHeight / pageContentHeightPx)` (line 289). -/
def totalPagesOf (imgHeight pageContentHeight : ℚ) : ℤ :=
  ⌈imgHeight / pageContentHeightPx pageContentHeight⌉

/-- `sourceY = currentPage * pageContentHeightPx` (line 306). -/
def sliceSourceY (pageContentHeight : ℚ) (i : ℕ) : ℚ :=
  (i : ℚ) * pageContentHeightPx pageContentHeight

/-- `currentPageHeightPx = Math.min(pageContentHeightPx, remainingHeight)` with
`remainingHeight = imgHeight - sourceY` (lines 307-308). -/
def sliceHeightPx (imgHeight pageContentHeight : ℚ) (i : ℕ) : ℚ :=
  min (pageContentHeightPx pageContentHeight) (imgHeight - sliceSourceY pageContentHeight i)

/-- The sequence of `(sourceY, sliceHeight)` rectangles produced by the
`addNextPage` loop, in emission order. -/
def pageSlices (imgHeight pageContentHeight : ℚ) : List (ℚ × ℚ) :=
  (List.range (totalPagesOf imgHeight pageContentHeight).toNat).map
    fun i => (sliceSourceY pageContentHeight i, sliceHeightPx imgHeight pageContentHeight i)

/-- The argument `createPDFFromCanvas` actually passes as `imgHeight` to
`addImageToPDF` is `finalHeight` — a millimetre quantity (line 263). -/
def composedTotalPages (o : PDFGenerationOptions) (cv : Canvas) : ℤ :=
  totalPagesOf (finalHeightOf o cv) (contentHeightOf o)

/-! ### Element styles
From `pdfGenerator.ts` lines 118-159 (`prepareElementForRendering`,
`restoreElementStyles`). -/

/-- A CSS property value: either a raw string or a length written as a number
of millimetres (the source writes the latter by string interpolation). -/
inductive StyleVal
  | str : String → StyleVal
  | mm : ℚ → StyleVal
deriving DecidableEq, Repr

/-- The fourteen `element.style` properties that `prepareElementForRendering`
snapshots into `originalStyles`. -/
structure ElementStyles where
  width : StyleVal
  height : StyleVal
  overflow : StyleVal
  position : StyleVal
  top : StyleVal
  left : StyleVal
  zIndex : StyleVal
  backgroundColor : StyleVal
  color : StyleVal
  fontFamily : StyleVal
  fontSize : StyleVal
  lineHeight : StyleVal
  padding : StyleVal
  boxSizing : StyleVal
deriving DecidableEq, Repr

/-- The PDF-optimized style override applied at lines 140-150; `top`, `left`
and `zIndex` are snapshotted but not overridden. Returns
`(originalStyles, mutated element styles)`. -/
def prepareElementForRendering (el : ElementStyles) (pageWidth : ℚ) (m : Margin) :
    ElementStyles × ElementStyles :=
  (el,
   { el with
      width := StyleVal.mm (pageWidth - m.left - m.right)
      height := StyleVal.str "auto"
      overflow := StyleVal.str "visible"
      position := StyleVal.str "static"
      backgroundColor := StyleVal.str "white"
      color := StyleVal.str "black"
      fontFamily := StyleVal.str "-apple-system, BlinkMacSystemFont, sans-serif"
      fontSize := StyleVal.str "14pt"
      lineHeight := StyleVal.str "1.6"
      padding := StyleVal.str "20mm"
      boxSizing := StyleVal.str "border-box" })

/-- `restoreElementStyles` writes every snapshotted key back onto the element
(lines 155-159). -/
def restoreElementStyles (_el orig : ElementStyles) : ElementStyles :=
  { width := orig.width
    height := orig.height
    overflow := orig.overflow
    position := orig.position
    top := orig.top
    left := orig.left
    zIndex := orig.zIndex
    backgroundColor := orig.backgroundColor
    color := orig.color
    fontFamily := orig.fontFamily
    fontSize := orig.fontSize
    lineHeight := orig.lineHeight
    padding := orig.padding
    boxSizing := orig.boxSizing }

/-! ### Progress events and generator instance state
From `pdfGenerator.ts` lines 27-46 and 373-381. -/

inductive Stage
  | preparing
  | rendering
  | generating
  | finalizing
  | complete
  | cancelled
deriving DecidableEq, Repr

structure PDFGenerationProgress where
  stage : Stage
  progress : ℚ
  message : String
deriving DecidableEq, Repr

/-- The two mutable instance flags of `BackgroundPDFGenerator`. -/
structure GenState where
  isCancelled : Bool
  isGenerating : Bool
deriving DecidableEq, Repr

/-- The state update performed by `cancel()` (lines 42-46). -/
def cancelState (_st : GenState) : GenState :=
  { isCancelled := true, isGenerating := false }

/-- The progress event emitted synchronously by `cancel()` (line 45). -/
def cancelEvent : PDFGenerationProgress :=
  ⟨Stage.cancelled, 0, "PDF generation cancelled."⟩

/-- `cancel()` : sets `isCancelled`, clears `isGenerating`, emits one event. -/
def cancel (st : GenState) : GenState × PDFGenerationProgress :=
  (cancelState st, cancelEvent)

/-- `error.message || 'Failed to generate PDF'` (line 111). -/
def errMsg (m : String) : String :=
  if m = "" then "Failed to generate PDF" else m

def evPreparing : PDFGenerationProgress :=
  ⟨Stage.preparing, 10, "Preparing content for PDF generation..."⟩

def evRendering : PDFGenerationProgress :=
  ⟨Stage.rendering, 30, "Rendering HTML to canvas..."⟩

def evGenerating : PDFGenerationProgress :=
  ⟨Stage.generating, 60, "Creating PDF document..."⟩

def evFinalizing : PDFGenerationProgress :=
  ⟨Stage.finalizing, 90, "Finalizing PDF..."⟩

def evComplete : PDFGenerationProgress :=
  ⟨Stage.complete, 100, "PDF generation complete!"⟩

/-- `pageProgress = 60 + (currentPage / totalPages) * 30` (line 299). -/
def pagePercent (n : ℤ) (i : ℕ) : ℚ :=
  60 + ((i : ℚ) / (n : ℚ)) * 30

/-- The per-slice progress events emitted by the `addNextPage` loop
(lines 292-300), one per produced slice. -/
def pageEvents (n : ℤ) : List PDFGenerationProgress :=
  (List.range n.toNat).map fun i =>
    ⟨Stage.generating, pagePercent n i,
      "Generating page " ++ toString (i + 1) ++ " of " ++ toString n ++ "..."⟩

/-- The progress events `createPDFFromCanvas` emits: none on the single-page
branch (line 249), the `addNextPage` events on the multi-page branch. -/
def createEvents (o : PDFGenerationOptions) (cv : Canvas) : List PDFGenerationProgress :=
  if finalHeightOf o cv ≤ contentHeightOf o then []
  else pageEvents (composedTotalPages o cv)

/-! ### One `generatePDF` run
From `pdfGenerator.ts` lines 48-116. The asynchronous run is modelled as a
pure function of the pre-call instance state and a `RunEnv` recording the
external interactions: at which of the three awaited operations (the initial
delay, the rasterizer call, the PDF-assembly call) a `cancel()` call arrives,
and whether the rasterizer / assembler throws (carrying the thrown message). -/

structure RunEnv where
  cancelDuringDelay : Bool
  cancelDuringRender : Bool
  cancelDuringCreate : Bool
  renderOutcome : Except String Canvas
  createOutcome : Except String Unit

/-- The resolved value of the promise returned by `generatePDF`. -/
structure GenResult where
  success : Bool
  error : Option String
  hasBlob : Bool
deriving DecidableEq, Repr

/-- Everything observable about one settled `generatePDF` run. -/
structure RunOutput where
  result : GenResult
  state : GenState
  events : List PDFGenerationProgress
  styles : ElementStyles
deriving DecidableEq, Repr

def alreadyInProgressMsg : String := "PDF generation already in progress"

/-- Shallow embedding of `BackgroundPDFGenerator.generatePDF` (lines 48-116):
the guard on `isGenerating`, the flag resets, the cancellation checkpoints
after each awaited operation, the style snapshot/override before rendering and
its restoration in the inner `finally`, the outer `catch` mapping thrown
errors to `{ success: false, error }`, and the outer `finally` clearing
`isGenerating`. When a `cancel()` arrives during an awaited operation its
state update and progress event take effect before the following checkpoint. -/
def generatePDF (st : GenState) (env : RunEnv) (o : PDFGenerationOptions)
    (el : ElementStyles) : RunOutput :=
  if st.isGenerating then
    ⟨⟨false, some alreadyInProgressMsg, false⟩, st, [], el⟩
  else
    -- lines 53-54: this.isGenerating = true; this.isCancelled = false
    let st1 : GenState := ⟨false, true⟩
    let ev1 := [evPreparing]
    -- line 60: await this.delay(50)
    let st2 := if env.cancelDuringDelay then cancelState st1 else st1
    let ev2 := if env.cancelDuringDelay then ev1 ++ [cancelEvent] else ev1
    if st2.isCancelled then
      -- lines 62-64 checkpoint, then outer finally (line 114)
      ⟨⟨false, some "Cancelled", false⟩, { st2 with isGenerating := false }, ev2, el⟩
    else
      let ev3 := ev2 ++ [evRendering]
      -- line 74: snapshot and override the element styles
      let prep := prepareElementForRendering el (pageWidthOf o.pageSize) (marginOf o)
      let origStyles := prep.1
      let el1 := prep.2
      match env.renderOutcome with
      | Except.error m =>
        -- rasterizer rejected: inner finally restores styles, outer catch returns
        let st3 := if env.cancelDuringRender then cancelState st2 else st2
        let ev4 := if env.cancelDuringRender then ev3 ++ [cancelEvent] else ev3
        ⟨⟨false, some (errMsg m), false⟩, { st3 with isGenerating := false }, ev4,
          restoreElementStyles el1 origStyles⟩
      | Except.ok cv =>
        let st3 := if env.cancelDuringRender then cancelState st2 else st2
        let ev4 := if env.cancelDuringRender then ev3 ++ [cancelEvent] else ev3
        if st3.isCancelled then
          -- lines 80-82 checkpoint
          ⟨⟨false, some "Cancelled", false⟩, { st3 with isGenerating := false }, ev4,
            restoreElementStyles el1 origStyles⟩
        else
          let ev5 := ev4 ++ [evGenerating]
          match env.createOutcome with
          | Except.error m =>
            let st4 := if env.cancelDuringCreate then cancelState st3 else st3
            let ev6 := if env.cancelDuringCreate then ev5 ++ [cancelEvent] else ev5
            ⟨⟨false, some (errMsg m), false⟩, { st4 with isGenerating := false }, ev6,
              restoreElementStyles el1 origStyles⟩
          | Except.ok _ =>
            let ev6 := ev5 ++ createEvents o cv
            let st4 := if env.cancelDuringCreate then cancelState st3 else st3
            let ev7 := if env.cancelDuringCreate then ev6 ++ [cancelEvent] else ev6
            if st4.isCancelled then
              -- lines 89-91 checkpoint
              ⟨⟨false, some "Cancelled", false⟩, { st4 with isGenerating := false }, ev7,
                restoreElementStyles el1 origStyles⟩
            else
              let ev8 := ev7 ++ [evFinalizing] ++ [evComplete]
              ⟨⟨true, none, true⟩, { st4 with isGenerating := false }, ev8,
                restoreElementStyles el1 origStyles⟩

/-- An environment in which no cancellation arrives and neither external
library throws: the rasterizer resolves with `cv`. -/
def cleanEnv (cv : Canvas) : RunEnv :=
  ⟨false, false, false, Except.ok cv, Except.ok ()⟩

/-! ### Download filenames
From `downloadUtils.ts` line 44, `pdfUtils.ts` lines 67 and 169, and the
html2pdf-based generator variant. JS strings are modelled as `List Char`. -/

abbrev JSString := List Char

/-- JS `s.endsWith(suffix)`. -/
def endsWith (s suffix : JSString) : Bool := suffix.isSuffixOf s

def mdExt : JSString := ".md".toList

def pdfExt : JSString := ".pdf".toList

/-- `downloadUtils.ts` line 44:
`filename.endsWith('.md') ? filename : filename + '.md'`. -/
def downloadFileName (filename : JSString) : JSString :=
  if endsWith filename mdExt then filename else filename ++ mdExt

/-- `pdfUtils.ts` line 169 (same computation at line 67):
`filename.endsWith('.pdf') ? filename : filename + '.pdf'`. -/
def downloadPDFName (filename : JSString) : JSString :=
  if endsWith filename pdfExt then filename else filename ++ pdfExt

/-- The html2pdf-based `BackgroundPDFGenerator.generatePDF` builds
`filename: options.filename + '.pdf'` unconditionally. -/
def html2pdfFileName (filename : JSString) : JSString := filename ++ pdfExt

/-! ### Option validation
From `pdfUtils.ts` lines 248-294 (`validatePDFOptions`). -/

/-- A `Partial<PDFOptions>` argument: every field may be absent. -/
structure PDFOptionsArg where
  filename : Option JSString
  pageSize : Option PageSize
  orientation : Option Orientation
  margin : Option Margin
  quality : Option ℚ
  scale : Option ℚ
deriving DecidableEq, Repr

/-- The fully-defaulted record `validatePDFOptions` returns on success. -/
structure ValidatedPDFOptions where
  filename : JSString
  pageSize : PageSize
  orientation : Orientation
  margin : Margin
  quality : ℚ
  scale : ℚ
deriving DecidableEq, Repr

/-- `validatePDFOptions`: applies the destructuring defaults, then the five
guard clauses in source order, throwing (modelled as `Except.error`) on the
first violated one. -/
def validatePDFOptions (o : PDFOptionsArg) : Except String ValidatedPDFOptions :=
  let filename := o.filename.getD "document".toList
  let pageSize := o.pageSize.getD PageSize.a4
  let orientation := o.orientation.getD Orientation.portrait
  let margin := o.margin.getD ⟨20, 20, 20, 20⟩
  let quality := o.quality.getD (98 / 100)
  let scale := o.scale.getD 2
  if filename = [] then Except.error "Filename must be a non-empty string"
  else if quality < 1 / 10 ∨ 1 < quality then
    Except.error "Quality must be between 0.1 and 1"
  else if scale < 5 / 10 ∨ 5 < scale then
    Except.error "Scale must be between 0.5 and 5"
  else if pageSize ∉ [PageSize.a4, PageSize.letter, PageSize.legal] then
    Except.error "Page size must be a4, letter, or legal"
  else if orientation ∉ [Orientation.portrait, Orientation.landscape] then
    Except.error "Orientation must be portrait or landscape"
  else Except.ok ⟨filename, pageSize, orientation, margin, quality, scale⟩

/-! ### `generatePDFFromElement`
From `pdfUtils.ts` lines 39-150. Its destructuring defaults differ from the
generator class: margins default to 5mm on each side, and the fit scale is
`Math.min(scaleX, scaleY, 1)`. -/

/-- `pdfUtils.PDFOptions`: `filename` is required, the rest optional. -/
structure PDFOptionsRec where
  filename : JSString
  pageSize : Option PageSize
  orientation : Option Orientation
  margin : Option Margin
  quality : Option ℚ
  scale : Option ℚ
deriving DecidableEq, Repr

def pageWidthPS : PageSize → ℚ
  | PageSize.a4 => 210
  | PageSize.letter => 216
  | PageSize.legal => 216

def pageHeightPS : PageSize → ℚ
  | PageSize.a4 => 297
  | PageSize.letter => 279
  | PageSize.legal => 356

def elMargin (o : PDFOptionsRec) : Margin := o.margin.getD ⟨5, 5, 5, 5⟩

def elPageSize (o : PDFOptionsRec) : PageSize := o.pageSize.getD PageSize.a4

def elContentWidth (o : PDFOptionsRec) : ℚ :=
  pageWidthPS (elPageSize o) - (elMargin o).left - (elMargin o).right

def elContentHeight (o : PDFOptionsRec) : ℚ :=
  pageHeightPS (elPageSize o) - (elMargin o).top - (elMargin o).bottom

/-- `scaleX = contentWidth / (imgWidth * 0.264583)` (line 98). -/
def elScaleX (o : PDFOptionsRec) (cv : Canvas) : ℚ :=
  elContentWidth o / (cv.width * mmPerPx)

/-- `scaleY = contentHeight / (imgHeight * 0.264583)` (line 99). -/
def elScaleY (o : PDFOptionsRec) (cv : Canvas) : ℚ :=
  elContentHeight o / (cv.height * mmPerPx)

/-- `finalScale = Math.min(scaleX, scaleY, 1)` (line 100). -/
def elFinalScale (o : PDFOptionsRec) (cv : Canvas) : ℚ :=
  min (elScaleX o cv) (min (elScaleY o cv) 1)

/-- `finalWidth = imgWidth * finalScale * 0.264583` (line 120). -/
def elFinalWidth (o : PDFOptionsRec) (cv : Canvas) : ℚ :=
  cv.width * elFinalScale o cv * mmPerPx

/-- `finalHeight = imgHeight * finalScale * 0.264583` (line 121). -/
def elFinalHeight (o : PDFOptionsRec) (cv : Canvas) : ℚ :=
  cv.height * elFinalScale o cv * mmPerPx

/-- `PDFResult` of `pdfUtils.ts`. -/
structure PDFResult where
  success : Bool
  error : Option String
  hasPdfBlob : Bool
deriving DecidableEq, Repr

/-- External interactions of one `generatePDFFromElement` call: whether the
`element` argument is non-null, and the html2canvas outcome. -/
structure ElementEnv where
  elementPresent : Bool
  canvasOutcome : Except String Canvas

/-- Shallow embedding of `generatePDFFromElement` (lines 39-150): the two
input-validation throws and any html2canvas rejection are caught by the
function's own `catch`, which resolves with `{ success: false, error }`;
otherwise the function resolves with `{ success: true, pdfBlob }`. -/
def generatePDFFromElement (env : ElementEnv) (o : PDFOptionsRec) : PDFResult :=
  if env.elementPresent = false then
    ⟨false, some "Element is required for PDF generation", false⟩
  else if o.filename = [] then
    ⟨false, some "Valid filename is required", false⟩
  else
    match env.canvasOutcome with
    | Except.error m => ⟨false, some m, false⟩
    | Except.ok _ => ⟨true, none, true⟩

/-! ### Derived notions used by the statements -/

/-- Events not emitted by `cancel()`. -/
def nonCancelled (e : PDFGenerationProgress) : Bool := e.stage != Stage.cancelled

/-- The percent values carried by a list of progress events, in order. -/
def percents (l : List PDFGenerationProgress) : List ℚ :=
  l.map PDFGenerationProgress.progress

/-- The percent values of the per-slice events of an `n`-page assembly. -/
def ppList (n : ℤ) : List ℚ := (List.range n.toNat).map (pagePercent n)

/-! ### Sample concrete inputs used by witnesses and counterexamples -/

/-- A neutral style snapshot. -/
def sampleStyles : ElementStyles :=
  ⟨StyleVal.str "", StyleVal.str "", StyleVal.str "", StyleVal.str "",
   StyleVal.str "", StyleVal.str "", StyleVal.str "", StyleVal.str "",
   StyleVal.str "", StyleVal.str "", StyleVal.str "", StyleVal.str "",
   StyleVal.str "", StyleVal.str ""⟩

/-- A4 portrait with the default margins. -/
def a4Options : PDFGenerationOptions :=
  ⟨"doc".toList, some PageSize.a4, some Orientation.portrait, none, none, none⟩

/-- A4 portrait options carrying `quality: 1.5`, outside the declared
`[0.1, 1.0]` range. -/
def badQualityOptions : PDFGenerationOptions :=
  ⟨"doc".toList, some PageSize.a4, some Orientation.portrait, none, some (15 / 10), none⟩

/-- A 500 x 2000 px rasterized bitmap (taller than one A4 content height). -/
def tallCanvas : Canvas := ⟨500, 2000⟩

/-- A 500 x 500 px rasterized bitmap (fits on one page). -/
def shortCanvas : Canvas := ⟨500, 500⟩

/-! ### Helper lemmas -/

lemma restoreElementStyles_eq (a b : ElementStyles) : restoreElementStyles a b = b := rfl

lemma prepare_fst (el : ElementStyles) (w : ℚ) (m : Margin) :
    (prepareElementForRendering el w m).1 = el := rfl

lemma mmPerPx_pos : (0 : ℚ) < mmPerPx := by norm_num [mmPerPx]

lemma pageContentHeightPx_pos {P : ℚ} (hP : 0 < P) : 0 < pageContentHeightPx P :=
  div_pos hP mmPerPx_pos

lemma ceil_slice_bounds (H q : ℚ) (hH : 0 < H) (hq : 0 < q) :
    H ≤ (⌈H / q⌉.toNat : ℚ) * q ∧ ((⌈H / q⌉.toNat : ℚ) - 1) * q < H ∧
      1 ≤ ⌈H / q⌉.toNat := by
  have hpos : 0 < ⌈H / q⌉ := Int.ceil_pos.mpr (div_pos hH hq)
  have hcast : ((⌈H / q⌉.toNat : ℤ) : ℚ) = ((⌈H / q⌉ : ℤ) : ℚ) := by
    rw [Int.toNat_of_nonneg hpos.le]
  refine ⟨?_, ?_, by omega⟩
  · have h1 : H / q ≤ ((⌈H / q⌉ : ℤ) : ℚ) := Int.le_ceil _
    have h2 : H / q * q ≤ ((⌈H / q⌉ : ℤ) : ℚ) * q := mul_le_mul_of_nonneg_right h1 hq.le
    rw [div_mul_cancel₀ H hq.ne'] at h2
    calc H ≤ ((⌈H / q⌉ : ℤ) : ℚ) * q := h2
      _ = (⌈H / q⌉.toNat : ℚ) * q := by rw [← hcast]; push_cast; ring
  · have h1 : ((⌈H / q⌉ : ℤ) : ℚ) < H / q + 1 := Int.ceil_lt_add_one _
    have h2 : ((⌈H / q⌉ : ℤ) : ℚ) - 1 < H / q := by linarith
    have h3 : (((⌈H / q⌉ : ℤ) : ℚ) - 1) * q < H / q * q := mul_lt_mul_of_pos_right h2 hq
    rw [div_mul_cancel₀ H hq.ne'] at h3
    calc ((⌈H / q⌉.toNat : ℚ) - 1) * q = (((⌈H / q⌉ : ℤ) : ℚ) - 1) * q := by
          rw [← hcast]; push_cast; ring
      _ < H := h3

lemma slice_min_full (H q : ℚ) (hH : 0 < H) (hq : 0 < q) (i : ℕ)
    (hi : i + 1 < ⌈H / q⌉.toNat) : min q (H - (i : ℚ) * q) = q := by
  obtain ⟨hle, hlt, hn1⟩ := ceil_slice_bounds H q hH hq
  apply min_eq_left
  have h2 : (i : ℚ) + 2 ≤ (⌈H / q⌉.toNat : ℚ) := by exact_mod_cast hi
  nlinarith [hq.le]

lemma slices_sum (H q : ℚ) (hH : 0 < H) (hq : 0 < q) :
    ∑ i ∈ Finset.range (⌈H / q⌉.toNat), min q (H - (i : ℚ) * q) = H := by
  obtain ⟨hle, hlt, hn1⟩ := ceil_slice_bounds H q hH hq
  generalize hg : ⌈H / q⌉.toNat = n at hle hlt hn1
  obtain ⟨m, rfl⟩ : ∃ m, n = m + 1 := ⟨n - 1, by omega⟩
  rw [Finset.sum_range_succ]
  have hle' : H ≤ (m : ℚ) * q + q := by push_cast at hle; linarith
  have hlt' : (m : ℚ) * q < H := by push_cast at hlt; linarith
  have hlast : min q (H - (m : ℚ) * q) = H - (m : ℚ) * q := min_eq_right (by linarith)
  have hstep : ∀ i ∈ Finset.range m, min q (H - (i : ℚ) * q) = q := by
    intro i hi
    rw [Finset.mem_range] at hi
    exact slice_min_full H q hH hq i (by rw [hg]; omega)
  rw [Finset.sum_congr rfl hstep, hlast, Finset.sum_const, Finset.card_range, nsmul_eq_mul]
  ring

lemma pageSlices_length (H P : ℚ) :
    (pageSlices H P).length = (totalPagesOf H P).toNat := by
  simp [pageSlices]

lemma endsWith_append (fn ext : JSString) : endsWith (fn ++ ext) ext = true := by
  unfold endsWith
  rw [List.isSuffixOf_iff_suffix]
  exact List.suffix_append fn ext

lemma pagePercent_bounds (n : ℤ) (i : ℕ) (hi : i < n.toNat) :
    60 ≤ pagePercent n i ∧ pagePercent n i ≤ 90 := by
  have hn : 0 < n := by omega
  have hnq : (0 : ℚ) < (n : ℚ) := by exact_mod_cast hn
  have hiq : (i : ℚ) ≤ (n : ℚ) := by
    have : (i : ℤ) ≤ n := by omega
    exact_mod_cast this
  constructor
  · have : 0 ≤ ((i : ℚ) / (n : ℚ)) * 30 := by positivity
    unfold pagePercent
    linarith
  · have h1 : (i : ℚ) / (n : ℚ) ≤ 1 := by
      rw [div_le_one hnq]
      exact hiq
    unfold pagePercent
    nlinarith

lemma pagePercent_mono (n : ℤ) (i j : ℕ) (hij : i ≤ j) (hj : j < n.toNat) :
    pagePercent n i ≤ pagePercent n j := by
  have hn : 0 < n := by omega
  have hnq : (0 : ℚ) < (n : ℚ) := by exact_mod_cast hn
  have hiq : (i : ℚ) ≤ (j : ℚ) := by exact_mod_cast hij
  unfold pagePercent
  have h1 : (i : ℚ) / (n : ℚ) ≤ (j : ℚ) / (n : ℚ) :=
    div_le_div_of_nonneg_right hiq hnq.le
  nlinarith

lemma ppList_sorted (n : ℤ) : List.Sorted (· ≤ ·) (ppList n) := by
  unfold ppList
  show List.Pairwise _ _
  rw [List.pairwise_map]
  apply List.Pairwise.imp_of_mem ?_ (List.pairwise_lt_range n.toNat)
  intro i j hi hj hij
  rw [List.mem_range] at hj
  exact pagePercent_mono n i j hij.le hj

lemma ppList_mem_bounds (n : ℤ) (x : ℚ) (hx : x ∈ ppList n) : 60 ≤ x ∧ x ≤ 90 := by
  unfold ppList at hx
  rw [List.mem_map] at hx
  obtain ⟨i, hi, rfl⟩ := hx
  rw [List.mem_range] at hi
  exact pagePercent_bounds n i hi

lemma sorted_full (n : ℤ) :
    List.Sorted (· ≤ ·) (10 :: 30 :: 60 :: (ppList n ++ [90, 100])) := by
  rw [show (10 : ℚ) :: 30 :: 60 :: (ppList n ++ [90, 100]) =
    [(10 : ℚ), 30, 60] ++ (ppList n ++ [90, 100]) by simp]
  rw [List.Sorted, List.pairwise_append]
  refine ⟨by decide, ?_, ?_⟩
  · rw [List.pairwise_append]
    refine ⟨ppList_sorted n, by decide, ?_⟩
    intro x hx y hy
    have hb := (ppList_mem_bounds n x hx).2
    simp only [List.mem_cons, List.not_mem_nil, or_false] at hy
    rcases hy with rfl | rfl <;> linarith
  · intro x hx y hy
    have hx3 : x ≤ 60 := by
      simp only [List.mem_cons, List.not_mem_nil, or_false] at hx
      rcases hx with rfl | rfl | rfl <;> norm_num
    rcases List.mem_append.mp hy with hy1 | hy2
    · have := (ppList_mem_bounds n y hy1).1
      linarith
    · simp only [List.mem_cons, List.not_mem_nil, or_false] at hy2
      rcases hy2 with rfl | rfl <;> linarith

lemma sorted_mid (n : ℤ) :
    List.Sorted (· ≤ ·) (10 :: 30 :: 60 :: ppList n) := by
  rw [show (10 : ℚ) :: 30 :: 60 :: ppList n = [(10 : ℚ), 30, 60] ++ ppList n by simp]
  rw [List.Sorted, List.pairwise_append]
  refine ⟨by decide, ppList_sorted n, ?_⟩
  intro x hx y hy
  have hx3 : x ≤ 60 := by
    simp only [List.mem_cons, List.not_mem_nil, or_false] at hx
    rcases hx with rfl | rfl | rfl <;> norm_num
  have := (ppList_mem_bounds n y hy).1
  linarith

lemma pageEvents_stage (n : ℤ) (e : PDFGenerationProgress) (he : e ∈ pageEvents n) :
    e.stage = Stage.generating := by
  unfold pageEvents at he
  rw [List.mem_map] at he
  obtain ⟨i, _, rfl⟩ := he
  rfl

lemma filter_pageEvents (n : ℤ) : (pageEvents n).filter nonCancelled = pageEvents n := by
  rw [List.filter_eq_self]
  intro a ha
  rw [nonCancelled, pageEvents_stage n a ha]
  rfl

lemma map_progress_pageEvents (n : ℤ) :
    (pageEvents n).map PDFGenerationProgress.progress = ppList n := by
  unfold pageEvents ppList
  rw [List.map_map]
  rfl

lemma nc_prep : nonCancelled evPreparing = true := rfl

lemma nc_rend : nonCancelled evRendering = true := rfl

lemma nc_gen : nonCancelled evGenerating = true := rfl

lemma nc_fin : nonCancelled evFinalizing = true := rfl

lemma nc_comp : nonCancelled evComplete = true := rfl

lemma nc_cancel : nonCancelled cancelEvent = false := rfl

lemma p_prep : evPreparing.progress = 10 := rfl

lemma p_rend : evRendering.progress = 30 := rfl

lemma p_gen : evGenerating.progress = 60 := rfl

lemma p_fin : evFinalizing.progress = 90 := rfl

lemma p_comp : evComplete.progress = 100 := rfl

/-- Every run's event trace takes one of seven shapes, depending on where a
cancellation arrived and which external call (if any) failed. -/
lemma run_events (st : GenState) (env : RunEnv) (o : PDFGenerationOptions)
    (el : ElementStyles) :
    (generatePDF st env o el).events = [] ∨
    (generatePDF st env o el).events = [evPreparing, cancelEvent] ∨
    (generatePDF st env o el).events = [evPreparing, evRendering] ∨
    (generatePDF st env o el).events = [evPreparing, evRendering, cancelEvent] ∨
    (∃ n, (generatePDF st env o el).events =
      [evPreparing, evRendering, evGenerating] ++ pageEvents n) ∨
    (∃ n, (generatePDF st env o el).events =
      [evPreparing, evRendering, evGenerating] ++ pageEvents n ++ [cancelEvent]) ∨
    (∃ n, (generatePDF st env o el).events =
      [evPreparing, evRendering, evGenerating] ++ pageEvents n ++
        [evFinalizing, evComplete]) := by
  obtain ⟨cd, cr, cc, ro, co⟩ := env
  cases hst : st.isGenerating
  case true =>
    left
    simp [generatePDF, hst]
  case false =>
  cases cd
  case true =>
    right; left
    simp [generatePDF, hst, cancelState]
  case false =>
  cases ro with
  | error m =>
    cases cr
    case false =>
      right; right; left
      simp [generatePDF, hst, cancelState]
    case true =>
      right; right; right; left
      simp [generatePDF, hst, cancelState]
  | ok cv =>
    cases cr
    case true =>
      right; right; right; left
      simp [generatePDF, hst, cancelState]
    case false =>
    cases co with
    | error m =>
      cases cc
      case false =>
        right; right; right; right; left
        exact ⟨0, by simp [generatePDF, hst, cancelState, pageEvents]⟩
      case true =>
        right; right; right; right; right; left
        exact ⟨0, by simp [generatePDF, hst, cancelState, pageEvents]⟩
    | ok u =>
      by_cases hfc : finalHeightOf o cv ≤ contentHeightOf o
      all_goals cases cc
      case pos.false =>
        right; right; right; right; right; right
        exact ⟨0, by simp [generatePDF, hst, cancelState, createEvents, hfc, pageEvents]⟩
      case pos.true =>
        right; right; right; right; right; left
        exact ⟨0, by simp [generatePDF, hst, cancelState, createEvents, hfc, pageEvents]⟩
      case neg.false =>
        right; right; right; right; right; right
        exact ⟨composedTotalPages o cv,
          by simp [generatePDF, hst, cancelState, createEvents, hfc]⟩
      case neg.true =>
        right; right; right; right; right; left
        exact ⟨composedTotalPages o cv,
          by simp [generatePDF, hst, cancelState, createEvents, hfc]⟩

/-! ### Claim theorems -/

/-- C1: when the `addNextPage` slicing arithmetic is given a bitmap height `H`
in pixels and a page content height `P` in millimetres (so that
`pageContentHeightPx P` is the page content height in pixels), it produces
exactly `ceil(H / pageContentHeightPx P)` slices whose heights are
`min(pageContentHeightPx P, remaining)`, which start at 0, abut with zero gap
and zero overlap, are strictly top-to-bottom ordered, are positive, and sum to
`H` — but `createPDFFromCanvas` actually passes `finalHeight`, a millimetre
quantity, as the `imgHeight` argument: on a 500 x 2000 px A4 canvas the code
takes the multi-page branch and produces 1 slice where the claim's
`ceil(H/P)` is 3, and the produced slice heights sum to the millimetre value
`finalHeight`, which is smaller than the 2000 px bitmap height, so the slices
cannot cover the bitmap. -/
theorem pageSlices_pixel_semantics_and_mm_px_mismatch :
    (∀ H P : ℚ, 0 < H → 0 < P →
      ((pageSlices H P).length : ℤ) = ⌈H / pageContentHeightPx P⌉ ∧
      (∀ i, sliceHeightPx H P i =
        min (pageContentHeightPx P) (H - sliceSourceY P i)) ∧
      (∑ i ∈ Finset.range (pageSlices H P).length, sliceHeightPx H P i) = H ∧
      sliceSourceY P 0 = 0 ∧
      (∀ i, i + 1 < (pageSlices H P).length →
        sliceSourceY P (i + 1) = sliceSourceY P i + sliceHeightPx H P i) ∧
      (∀ i j, i < j → sliceSourceY P i < sliceSourceY P j) ∧
      (∀ i, i < (pageSlices H P).length → 0 < sliceHeightPx H P i)) ∧
    composedTotalPages a4Options tallCanvas = 1 ∧
    (⌈tallCanvas.height / pageContentHeightPx (contentHeightOf a4Options)⌉ : ℤ) = 3 ∧
    contentHeightOf a4Options < finalHeightOf a4Options tallCanvas ∧
    finalHeightOf a4Options tallCanvas < tallCanvas.height := by
  constructor
  · intro H P hH hP
    have hq : 0 < pageContentHeightPx P := pageContentHeightPx_pos hP
    set q := pageContentHeightPx P with hqdef
    have hlen : (pageSlices H P).length = ⌈H / q⌉.toNat := pageSlices_length H P
    obtain ⟨hle, hlt, hn1⟩ := ceil_slice_bounds H q hH hq
    refine ⟨?_, fun i => rfl, ?_, ?_, ?_, ?_, ?_⟩
    · rw [hlen]
      have hpos : 0 < ⌈H / q⌉ := Int.ceil_pos.mpr (div_pos hH hq)
      rw [Int.toNat_of_nonneg hpos.le]
    · rw [hlen]
      have hform : ∀ i : ℕ, sliceHeightPx H P i = min q (H - (i : ℚ) * q) := fun i => rfl
      rw [Finset.sum_congr rfl (fun i _ => hform i)]
      exact slices_sum H q hH hq
    · simp [sliceSourceY]
    · intro i hi
      rw [hlen] at hi
      have hfull : sliceHeightPx H P i = q := by
        have hform : sliceHeightPx H P i = min q (H - (i : ℚ) * q) := rfl
        rw [hform]
        exact slice_min_full H q hH hq i hi
      rw [hfull]
      show ((i + 1 : ℕ) : ℚ) * q = (i : ℚ) * q + q
      push_cast
      ring
    · intro i j hij
      show (i : ℚ) * q < (j : ℚ) * q
      have hcast : (i : ℚ) < (j : ℚ) := by exact_mod_cast hij
      exact mul_lt_mul_of_pos_right hcast hq
    · intro i hi
      rw [hlen] at hi
      show 0 < min q (H - (i : ℚ) * q)
      apply lt_min hq
      have hiq : (i : ℚ) ≤ (⌈H / q⌉.toNat : ℚ) - 1 := by
        have hcast : (i : ℚ) + 1 ≤ (⌈H / q⌉.toNat : ℚ) := by exact_mod_cast hi
        linarith
      nlinarith [hq.le]
  · refine ⟨?_, ?_, ?_, ?_⟩
    · unfold composedTotalPages totalPagesOf pageContentHeightPx finalHeightOf imgHeightMM
        finalScaleOf contentWidthOf imgWidthMM contentHeightOf pageWidthOf pageHeightOf
        marginOf defaultMargin mmPerPx a4Options tallCanvas
      norm_num [Int.ceil_eq_iff]
    · unfold pageContentHeightPx contentHeightOf pageHeightOf marginOf defaultMargin
        mmPerPx a4Options tallCanvas
      norm_num [Int.ceil_eq_iff]
    · unfold finalHeightOf imgHeightMM finalScaleOf contentWidthOf imgWidthMM
        contentHeightOf pageWidthOf pageHeightOf marginOf defaultMargin mmPerPx
        a4Options tallCanvas
      norm_num
    · unfold finalHeightOf imgHeightMM finalScaleOf contentWidthOf imgWidthMM
        pageWidthOf marginOf defaultMargin mmPerPx a4Options tallCanvas
      norm_num

/-- Witness for C1's quantified part at the pixel heights `H = 2000`,
`P = 257`. -/
theorem pageSlices_pixel_semantics_and_mm_px_mismatch_witness :
    (0 : ℚ) < 2000 ∧ (0 : ℚ) < 257 ∧
    ((pageSlices 2000 257).length : ℤ) = ⌈(2000 : ℚ) / pageContentHeightPx 257⌉ :=
  ⟨by norm_num, by norm_num,
    (pageSlices_pixel_semantics_and_mm_px_mismatch.1 2000 257
      (by norm_num) (by norm_num)).1⟩

/-- C2 counterexample: calling the export entry point with `quality: 1.5`
does not fail with a validation error and does not suppress stage-transition
progress events — the run emits `preparing` first and completes
successfully. -/
theorem generatePDF_accepts_invalid_quality :
    (generatePDF ⟨false, false⟩ (cleanEnv shortCanvas) badQualityOptions
      sampleStyles).result.success = true ∧
    (generatePDF ⟨false, false⟩ (cleanEnv shortCanvas) badQualityOptions
      sampleStyles).events.head? = some evPreparing ∧
    (generatePDF ⟨false, false⟩ (cleanEnv shortCanvas) badQualityOptions
      sampleStyles).result.error = none := by
  refine ⟨?_, ?_, ?_⟩ <;>
    simp [generatePDF, cleanEnv, badQualityOptions, cancelState]

/-- C2 amended: `validatePDFOptions` does reject an empty filename, an
out-of-range quality and an out-of-range scale with the declared validation
errors, but no export entry point invokes it: `generatePDF` performs no
option validation, so a call with `quality: 1.5` proceeds, emits the
`preparing` stage event, and completes successfully. -/
theorem validatePDFOptions_guards_unwired
    (fn : Option JSString) (ps : Option PageSize) (orn : Option Orientation)
    (m : Option Margin) (q s : ℚ) :
    (validatePDFOptions ⟨some [], ps, orn, m, some q, some s⟩ =
      Except.error "Filename must be a non-empty string") ∧
    (fn ≠ some [] → (q < 1 / 10 ∨ 1 < q) →
      validatePDFOptions ⟨fn, ps, orn, m, some q, some s⟩ =
        Except.error "Quality must be between 0.1 and 1") ∧
    (fn ≠ some [] → (s < 5 / 10 ∨ 5 < s) →
      validatePDFOptions ⟨fn, ps, orn, m, none, some s⟩ =
        Except.error "Scale must be between 0.5 and 5") ∧
    ((generatePDF ⟨false, false⟩ (cleanEnv shortCanvas) badQualityOptions
        sampleStyles).result.success = true ∧
      (generatePDF ⟨false, false⟩ (cleanEnv shortCanvas) badQualityOptions
        sampleStyles).events.head? = some evPreparing) := by
  refine ⟨?_, ?_, ?_, ?_, ?_⟩
  · simp [validatePDFOptions]
  · intro hfn hq
    have hgd : ¬(fn.getD "document".toList = []) := by
      cases fn with
      | none => decide
      | some f => simpa using hfn
    simp only [validatePDFOptions, Option.getD_some, Option.getD_none]
    rw [if_neg hgd, if_pos hq]
  · intro hfn hs
    have hgd : ¬(fn.getD "document".toList = []) := by
      cases fn with
      | none => decide
      | some f => simpa using hfn
    simp only [validatePDFOptions, Option.getD_some, Option.getD_none]
    rw [if_neg hgd, if_neg (by norm_num : ¬((98 : ℚ) / 100 < 1 / 10 ∨ 1 < (98 : ℚ) / 100)),
      if_pos hs]
  · simp [generatePDF, cleanEnv, badQualityOptions, cancelState]
  · simp [generatePDF, cleanEnv, badQualityOptions, cancelState]

/-- Witness for C2 at filename "doc" and quality 3/2. -/
theorem validatePDFOptions_guards_unwired_witness :
    (some "doc".toList ≠ some ([] : JSString)) ∧
    ((3 : ℚ) / 2 < 1 / 10 ∨ 1 < (3 : ℚ) / 2) ∧
    validatePDFOptions ⟨some "doc".toList, none, none, none, some (3 / 2), some 2⟩ =
      Except.error "Quality must be between 0.1 and 1" :=
  ⟨by decide, by norm_num,
    (validatePDFOptions_guards_unwired (some "doc".toList) none none none
      (3 / 2) 2).2.1 (by decide) (by norm_num)⟩

/-- C3 counterexample: a run in which `cancel()` arrives during the initial
delay emits percents `[10, 0]`: the `cancelled` event emitted by `cancel()`
always carries percent 0, so the percent sequence of the run is not
monotonically non-decreasing. -/
theorem cancel_event_decreases_percent :
    percents (generatePDF ⟨false, false⟩
      ⟨true, false, false, Except.ok shortCanvas, Except.ok ()⟩ a4Options
      sampleStyles).events = [10, 0] ∧
    ¬ List.Sorted (· ≤ ·) (percents (generatePDF ⟨false, false⟩
      ⟨true, false, false, Except.ok shortCanvas, Except.ok ()⟩ a4Options
      sampleStyles).events) := by
  have h : percents (generatePDF ⟨false, false⟩
      ⟨true, false, false, Except.ok shortCanvas, Except.ok ()⟩ a4Options
      sampleStyles).events = [10, 0] := by
    simp [generatePDF, cancelState, percents, evPreparing, cancelEvent]
  refine ⟨h, ?_⟩
  rw [h]
  decide

/-- C3 amended: within one run, the percents of the events emitted by the
generation pipeline itself — every event except the percent-0 `cancelled`
event that `cancel()` emits — are monotonically non-decreasing, and every
`complete` event carries exactly 100. -/
theorem progress_monotone_outside_cancel (st : GenState) (env : RunEnv)
    (o : PDFGenerationOptions) (el : ElementStyles) :
    List.Sorted (· ≤ ·)
      (percents (((generatePDF st env o el).events).filter nonCancelled)) ∧
    (∀ e ∈ (generatePDF st env o el).events, e.stage = Stage.complete →
      e.progress = 100) := by
  rcases run_events st env o el with h | h | h | h | ⟨n, h⟩ | ⟨n, h⟩ | ⟨n, h⟩ <;> rw [h]
  · exact ⟨by simp [percents], by simp⟩
  · constructor
    · have he : percents ([evPreparing, cancelEvent].filter nonCancelled) = [10] := by
        simp [percents, nc_prep, nc_cancel, p_prep]
      rw [he]
      exact List.sorted_singleton 10
    · intro e he hc
      rcases List.mem_cons.mp he with rfl | he'
      · simp [evPreparing] at hc
      · rcases List.mem_singleton.mp he' with rfl
        simp [cancelEvent] at hc
  · constructor
    · have he : percents ([evPreparing, evRendering].filter nonCancelled) =
          [10, 30] := by
        simp [percents, nc_prep, nc_rend, p_prep, p_rend]
      rw [he]
      decide
    · intro e he hc
      rcases List.mem_cons.mp he with rfl | he'
      · simp [evPreparing] at hc
      · rcases List.mem_singleton.mp he' with rfl
        simp [evRendering] at hc
  · constructor
    · have he : percents ([evPreparing, evRendering, cancelEvent].filter nonCancelled) =
          [10, 30] := by
        simp [percents, nc_prep, nc_rend, nc_cancel, p_prep, p_rend]
      rw [he]
      decide
    · intro e he hc
      rcases List.mem_cons.mp he with rfl | he'
      · simp [evPreparing] at hc
      · rcases List.mem_cons.mp he' with rfl | he''
        · simp [evRendering] at hc
        · rcases List.mem_singleton.mp he'' with rfl
          simp [cancelEvent] at hc
  · constructor
    · have he : percents ((([evPreparing, evRendering, evGenerating] ++
          pageEvents n)).filter nonCancelled) = 10 :: 30 :: 60 :: ppList n := by
        simp [percents, nc_prep, nc_rend, nc_gen, filter_pageEvents,
          map_progress_pageEvents, p_prep, p_rend, p_gen]
      rw [he]
      exact sorted_mid n
    · intro e he hc
      rcases List.mem_append.mp he with he' | hpp
      · rcases List.mem_cons.mp he' with rfl | he''
        · simp [evPreparing] at hc
        · rcases List.mem_cons.mp he'' with rfl | he3
          · simp [evRendering] at hc
          · rcases List.mem_singleton.mp he3 with rfl
            simp [evGenerating] at hc
      · rw [pageEvents_stage n e hpp] at hc
        exact absurd hc (by decide)
  · constructor
    · have he : percents ((([evPreparing, evRendering, evGenerating] ++
          pageEvents n ++ [cancelEvent])).filter nonCancelled) =
          10 :: 30 :: 60 :: ppList n := by
        simp [percents, nc_prep, nc_rend, nc_gen, nc_cancel, filter_pageEvents,
          map_progress_pageEvents, p_prep, p_rend, p_gen]
      rw [he]
      exact sorted_mid n
    · intro e he hc
      rcases List.mem_append.mp he with he0 | hc'
      · rcases List.mem_append.mp he0 with he' | hpp
        · rcases List.mem_cons.mp he' with rfl | he''
          · simp [evPreparing] at hc
          · rcases List.mem_cons.mp he'' with rfl | he3
            · simp [evRendering] at hc
            · rcases List.mem_singleton.mp he3 with rfl
              simp [evGenerating] at hc
        · rw [pageEvents_stage n e hpp] at hc
          exact absurd hc (by decide)
      · rcases List.mem_singleton.mp hc' with rfl
        simp [cancelEvent] at hc
  · constructor
    · have he : percents ((([evPreparing, evRendering, evGenerating] ++
          pageEvents n ++ [evFinalizing, evComplete])).filter nonCancelled) =
          10 :: 30 :: 60 :: (ppList n ++ [90, 100]) := by
        simp [percents, nc_prep, nc_rend, nc_gen, nc_fin, nc_comp, filter_pageEvents,
          map_progress_pageEvents, p_prep, p_rend, p_gen, p_fin, p_comp]
      rw [he]
      exact sorted_full n
    · intro e he hc
      rcases List.mem_append.mp he with he0 | hc'
      · rcases List.mem_append.mp he0 with he' | hpp
        · rcases List.mem_cons.mp he' with rfl | he''
          · simp [evPreparing] at hc
          · rcases List.mem_cons.mp he'' with rfl | he3
            · simp [evRendering] at hc
            · rcases List.mem_singleton.mp he3 with rfl
              simp [evGenerating] at hc
        · rw [pageEvents_stage n e hpp] at hc
          exact absurd hc (by decide)
      · rcases List.mem_cons.mp hc' with rfl | he4
        · simp [evFinalizing] at hc
        · rcases List.mem_singleton.mp he4 with rfl
          rfl

/-- Witness for C3 on a concrete successful run: the `complete` event is
emitted and the amended theorem yields its percent, 100. -/
theorem progress_monotone_outside_cancel_witness :
    evComplete ∈ (generatePDF ⟨false, false⟩ (cleanEnv shortCanvas) a4Options
      sampleStyles).events ∧
    evComplete.progress = 100 := by
  have hm : evComplete ∈ (generatePDF ⟨false, false⟩ (cleanEnv shortCanvas) a4Options
      sampleStyles).events := by
    simp [generatePDF, cleanEnv, cancelState, createEvents]
  exact ⟨hm, (progress_monotone_outside_cancel ⟨false, false⟩ (cleanEnv shortCanvas)
    a4Options sampleStyles).2 evComplete hm rfl⟩

/-- C4: every `generatePDF` run leaves the content surface's fourteen
snapshotted style properties exactly equal to their pre-export values, on
every exit path — success, cancellation at any checkpoint, a rasterizer
throw, or an assembler throw (the inner `finally` restores the snapshot on
each of them; paths that never reach the override leave the styles
untouched). -/
theorem generatePDF_restores_styles (st : GenState) (env : RunEnv)
    (o : PDFGenerationOptions) (el : ElementStyles) :
    (generatePDF st env o el).styles = el := by
  obtain ⟨cd, cr, cc, ro, co⟩ := env
  cases hst : st.isGenerating <;> cases cd <;> cases cr <;> cases cc <;>
    cases ro <;> cases co <;>
    simp [generatePDF, hst, cancelState, restoreElementStyles_eq, prepare_fst]

/-- C5: a `cancel()` arriving during the run's initial delay — before the
first checkpoint — makes the run settle at that checkpoint with the
`Cancelled` outcome and the `[preparing, cancelled]` event trace (so never
with `Complete`); the cancellation flag is still set when the run settles,
and a fresh `generatePDF` call on the resulting state clears it and proceeds
to `Complete` when nothing interferes. -/
theorem cancellation_level_triggered (b cr cc : Bool) (ro : Except String Canvas)
    (co : Except String Unit) (o : PDFGenerationOptions) (el : ElementStyles)
    (cv : Canvas) :
    (generatePDF ⟨b, false⟩ ⟨true, cr, cc, ro, co⟩ o el).result.success = false ∧
    (generatePDF ⟨b, false⟩ ⟨true, cr, cc, ro, co⟩ o el).result.error =
      some "Cancelled" ∧
    (generatePDF ⟨b, false⟩ ⟨true, cr, cc, ro, co⟩ o el).events =
      [evPreparing, cancelEvent] ∧
    (generatePDF ⟨b, false⟩ ⟨true, cr, cc, ro, co⟩ o el).state.isCancelled = true ∧
    (generatePDF ((generatePDF ⟨b, false⟩ ⟨true, cr, cc, ro, co⟩ o el).state)
        (cleanEnv cv) o el).result.success = true ∧
    evComplete ∈ (generatePDF ((generatePDF ⟨b, false⟩ ⟨true, cr, cc, ro, co⟩ o el).state)
        (cleanEnv cv) o el).events := by
  refine ⟨?_, ?_, ?_, ?_, ?_, ?_⟩ <;>
    simp [generatePDF, cancelState, cleanEnv, cancelEvent, evPreparing]

/-- C6: a `generatePDF` call made while the instance's `isGenerating` flag is
set returns immediately with the already-in-progress error, emits no progress
events, and leaves the instance state and the element styles unchanged. -/
theorem generatePDF_already_in_progress (st : GenState) (env : RunEnv)
    (o : PDFGenerationOptions) (el : ElementStyles) (h : st.isGenerating = true) :
    generatePDF st env o el =
      ⟨⟨false, some alreadyInProgressMsg, false⟩, st, [], el⟩ := by
  simp [generatePDF, h]

/-- Witness for C6 on a concrete in-progress state. -/
theorem generatePDF_already_in_progress_witness :
    GenState.isGenerating ⟨false, true⟩ = true ∧
    generatePDF ⟨false, true⟩ (cleanEnv shortCanvas) a4Options sampleStyles =
      ⟨⟨false, some alreadyInProgressMsg, false⟩, ⟨false, true⟩, [], sampleStyles⟩ :=
  ⟨rfl, generatePDF_already_in_progress ⟨false, true⟩ (cleanEnv shortCanvas)
    a4Options sampleStyles rfl⟩

/-- C7: `cancel()` clears `isGenerating` (while setting `isCancelled`), so a
`generatePDF` call issued right after `cancel()` — even before the cancelled
run's promise settles — passes the in-progress guard instead of being
rejected, and runs to success when nothing interferes. -/
theorem cancel_reopens_guard (st : GenState) (o : PDFGenerationOptions)
    (el : ElementStyles) (cv : Canvas) :
    (cancel st).1.isGenerating = false ∧
    (cancel st).1.isCancelled = true ∧
    (generatePDF (cancel st).1 (cleanEnv cv) o el).result.error ≠
      some alreadyInProgressMsg ∧
    (generatePDF (cancel st).1 (cleanEnv cv) o el).result.success = true := by
  refine ⟨rfl, rfl, ?_, ?_⟩ <;>
    simp [generatePDF, cancel, cancelState, cleanEnv, alreadyInProgressMsg]

/-- C8 counterexample: a caller-supplied filename already ending in ".pdf" is
not used as-is by the html2pdf-based generator variant — it appends ".pdf"
unconditionally, producing a duplicated extension. -/
theorem html2pdf_filename_duplicates_extension :
    endsWith "report.pdf".toList pdfExt = true ∧
    html2pdfFileName "report.pdf".toList ≠ "report.pdf".toList ∧
    html2pdfFileName "report.pdf".toList = "report.pdf.pdf".toList := by
  refine ⟨?_, ?_, ?_⟩ <;> decide

/-- C8 amended: the Markdown download (`downloadFile`) and the blob download
(`downloadPDF`) append their extension exactly when it is missing and
otherwise use the filename as-is, so their result always ends in the
extension; but the html2pdf-based generator variant appends ".pdf"
unconditionally, so a filename already ending in ".pdf" receives a duplicated
extension there. -/
theorem filename_extension_handling (fn : JSString) :
    endsWith (downloadFileName fn) mdExt = true ∧
    (endsWith fn mdExt = true → downloadFileName fn = fn) ∧
    (endsWith fn mdExt = false → downloadFileName fn = fn ++ mdExt) ∧
    endsWith (downloadPDFName fn) pdfExt = true ∧
    (endsWith fn pdfExt = true → downloadPDFName fn = fn) ∧
    (endsWith fn pdfExt = false → downloadPDFName fn = fn ++ pdfExt) ∧
    html2pdfFileName fn = fn ++ pdfExt := by
  unfold downloadFileName downloadPDFName html2pdfFileName
  by_cases h1 : endsWith fn mdExt = true <;> by_cases h2 : endsWith fn pdfExt = true <;>
    simp [h1, h2, endsWith_append]

/-- Witness for C8 at the extension-free filename "report". -/
theorem filename_extension_handling_witness :
    endsWith "report".toList mdExt = false ∧
    downloadFileName "report".toList = "report".toList ++ mdExt :=
  ⟨by decide, (filename_extension_handling "report".toList).2.2.1 (by decide)⟩

/-- C9: both fit computations use one uniform scale factor bounded by a fixed
ceiling — `createPDFFromCanvas` caps `min(scaleX, 1.2)` at 1.2, and
`generatePDFFromElement` caps `min(scaleX, scaleY, 1)` at 1 — and apply it to
width and height together, so the placed width and height are in exactly the
bitmap's aspect ratio (stated cross-multiplied, which also covers degenerate
zero dimensions). -/
theorem placement_scale_bounded_and_uniform (o : PDFGenerationOptions) (cv : Canvas)
    (o2 : PDFOptionsRec) (cv2 : Canvas) :
    finalScaleOf o cv ≤ 12 / 10 ∧
    finalWidthOf o cv * cv.height = finalHeightOf o cv * cv.width ∧
    elFinalScale o2 cv2 ≤ 1 ∧
    elFinalWidth o2 cv2 * cv2.height = elFinalHeight o2 cv2 * cv2.width := by
  refine ⟨min_le_right _ _, ?_, le_trans (min_le_right _ _) (min_le_right _ _), ?_⟩
  · unfold finalWidthOf finalHeightOf imgWidthMM imgHeightMM
    ring
  · unfold elFinalWidth elFinalHeight
    ring

/-- C10: both export functions are total on the model and always settle with a
well-formed result — either success with no error, or failure carrying an
error message; in particular a message thrown by the rasterizer or by the PDF
assembler is surfaced in the resolved value (through the
`error.message || 'Failed to generate PDF'` fallback in `generatePDF`), never
re-thrown. -/
theorem export_errors_surfaced_as_results (st : GenState) (env : RunEnv)
    (o : PDFGenerationOptions) (el : ElementStyles) (env2 : ElementEnv)
    (o2 : PDFOptionsRec) (b cr cc : Bool) (co : Except String Unit) (m : String)
    (c : Char) (fn : JSString) (ps : Option PageSize) (orn : Option Orientation)
    (mg : Option Margin) (q s : Option ℚ) (cv : Canvas) :
    (((generatePDF st env o el).result.success = true ∧
        (generatePDF st env o el).result.error = none) ∨
      ((generatePDF st env o el).result.success = false ∧
        ∃ msg, (generatePDF st env o el).result.error = some msg)) ∧
    (((generatePDFFromElement env2 o2).success = true ∧
        (generatePDFFromElement env2 o2).error = none) ∨
      ((generatePDFFromElement env2 o2).success = false ∧
        ∃ msg, (generatePDFFromElement env2 o2).error = some msg)) ∧
    (generatePDF ⟨b, false⟩ ⟨false, cr, cc, Except.error m, co⟩ o el).result =
      ⟨false, some (errMsg m), false⟩ ∧
    (generatePDF ⟨b, false⟩ ⟨false, false, cc, Except.ok cv, Except.error m⟩ o el).result =
      ⟨false, some (errMsg m), false⟩ ∧
    generatePDFFromElement ⟨true, Except.error m⟩ ⟨c :: fn, ps, orn, mg, q, s⟩ =
      ⟨false, some m, false⟩ := by
  refine ⟨?_, ?_, ?_, ?_, ?_⟩
  · obtain ⟨cd', cr', cc', ro', co'⟩ := env
    cases hst : st.isGenerating <;> cases cd' <;> cases cr' <;> cases cc' <;>
      cases ro' <;> cases co' <;>
      simp [generatePDF, hst, cancelState]
  · obtain ⟨ep, cvo⟩ := env2
    cases ep <;> cases cvo <;>
      simp [generatePDFFromElement] <;>
      by_cases hf : o2.filename = [] <;> simp [hf]
  · cases cr <;> cases cc <;> simp [generatePDF, cancelState]
  · cases cc <;> simp [generatePDF, cancelState]
  · simp [generatePDFFromElement]

end MarkdownEditor
